import Mathlib

/-!
Shallow embedding of the anteroom/parlor assistant runtime, and proofs about
its specification.  Each definition mirrors a function of the Python source
(`src/anteroom/...`, `src/parlor/...`); doc comments name the source symbol.
Asynchronous effects (awaits, locks) are modelled by explicit state passing;
I/O outcomes (DNS answers, stream chunks, tool results) are oracle parameters.
-/

namespace Anteroom

/-- Python-dict lookup on an insertion-ordered association list. -/
def alookup {β : Type} (k : String) : List (String × β) → Option β
  | [] => none
  | (k2, v) :: rest => if k2 = k then some v else alookup k rest

/-- Python-dict assignment `d[k] = v`: replace in place if the key exists, else append. -/
def aset {β : Type} (k : String) (v : β) : List (String × β) → List (String × β)
  | [] => [(k, v)]
  | (k2, v2) :: rest => if k2 = k then (k, v) :: rest else (k2, v2) :: aset k v rest

/-- Python-dict `d.pop(k, None)`: remove the entry for `k` if present. -/
def aerase {β : Type} (k : String) : List (String × β) → List (String × β)
  | [] => []
  | (k2, v2) :: rest => if k2 = k then rest else (k2, v2) :: aerase k rest

/-! ## Approval broker (`src/anteroom/services/approvals.py`) -/

/-- One pending approval (`PendingApproval` dataclass).  The one-shot
`asyncio.Future` is modelled by `futDone` (`fut.done()`) and `futResult`
(the value set by `fut.set_result`). -/
structure PendingApproval where
  message : String
  created_at : Nat
  owner : String
  futDone : Bool
  futResult : Option Bool
deriving Repr, DecidableEq

/-- `MAX_MESSAGE_CHARS` from the source. -/
def MAX_MESSAGE_CHARS : Nat := 10000

/-- The `ApprovalManager._pending` map (all access is under the manager lock,
so state passing is sequential). -/
structure ApprovalState where
  pending : List (String × PendingApproval)
deriving Repr, DecidableEq

/-- `ApprovalManager.request`: register a one-shot slot under a fresh id with
the message truncated to `MAX_MESSAGE_CHARS`. -/
def ApprovalManager.request (st : ApprovalState) (approval_id : String)
    (message : String) (now : Nat) (owner : String) : ApprovalState :=
  ⟨aset approval_id ⟨message.take MAX_MESSAGE_CHARS, now, owner, false, none⟩ st.pending⟩

/-- `ApprovalManager.resolve`: fulfil the slot iff the id exists, the owner tag
matches, and the future is not yet done; returns whether the resolution took
effect. -/
def ApprovalManager.resolve (st : ApprovalState) (approval_id : String)
    (approved : Bool) (owner : String) : ApprovalState × Bool :=
  match alookup approval_id st.pending with
  | none => (st, false)
  | some p =>
    if p.owner ≠ owner then (st, false)
    else if p.futDone then (st, false)
    else (⟨aset approval_id { p with futDone := true, futResult := some approved } st.pending⟩, true)

/-- Run a sequence of `resolve` calls against one approval id, collecting the
returned booleans in order. -/
def resolveMany (st : ApprovalState) (approval_id : String) :
    List (Bool × String) → ApprovalState × List Bool
  | [] => (st, [])
  | (v, o) :: rest =>
    let r := ApprovalManager.resolve st approval_id v o
    let rr := resolveMany r.1 approval_id rest
    (rr.1, r.2 :: rr.2)

/-! ## Event bus, local fast path (`src/anteroom/services/event_bus.py`) -/

/-- An `asyncio.Queue`.  Per asyncio semantics `maxsize = 0` means the queue is
never full (unbounded). -/
structure AQueue (α : Type) where
  maxsize : Nat
  items : List α
deriving Repr, DecidableEq

/-- `asyncio.Queue.full()`: `False` when `maxsize <= 0`, else `qsize() >= maxsize`. -/
def AQueue.full {α} (q : AQueue α) : Bool :=
  if q.maxsize ≤ 0 then false else decide (q.items.length ≥ q.maxsize)

/-- `asyncio.Queue.put_nowait(x)`: `none` models the `QueueFull` exception. -/
def AQueue.put_nowait {α} (q : AQueue α) (x : α) : Option (AQueue α) :=
  if q.full then none else some { q with items := q.items ++ [x] }

/-- The `EventBus._subscribers` registry (channel name to its queues). -/
structure EventBus (α : Type) where
  subscribers : List (String × List (AQueue α))
deriving Repr, DecidableEq

/-- `EventBus.subscribe(channel)`: creates `asyncio.Queue()` — i.e. with
`maxsize = 0` — registers it under the channel, and returns it. -/
def EventBus.subscribe {α} (bus : EventBus α) (channel : String) :
    EventBus α × AQueue α :=
  let queue : AQueue α := ⟨0, []⟩
  match alookup channel bus.subscribers with
  | none => (⟨aset channel [queue] bus.subscribers⟩, queue)
  | some qs => (⟨aset channel (qs ++ [queue]) bus.subscribers⟩, queue)

/-- One delivery attempt inside `EventBus.publish`: `put_nowait`, dropping the
event (second component `true`, with a warning logged) when the queue is full. -/
def offerEvent {α} (x : α) (q : AQueue α) : AQueue α × Bool :=
  match q.put_nowait x with
  | some q2 => (q2, false)
  | none => (q, true)

/-- `EventBus.publish(channel, event)`, local fast path: offer the event to
every queue currently subscribed to the channel; return the new registry and
the number of dropped deliveries (warnings).  The function is total and never
waits: the publisher is never blocked.  (The change-log persistence for
cross-process delivery is outside this claim.) -/
def EventBus.publish {α} (bus : EventBus α) (channel : String) (x : α) :
    EventBus α × Nat :=
  match alookup channel bus.subscribers with
  | none => (bus, 0)
  | some qs =>
    let delivered := qs.map (offerEvent x)
    (⟨aset channel (delivered.map Prod.fst) bus.subscribers⟩,
     (delivered.filter Prod.snd).length)

/-- Modelled from the spec: the claim says `subscribe` returns a *bounded*
queue.  Under asyncio semantics a queue bounds its size iff `maxsize` is
positive. -/
def spec_boundedQueue {α} (q : AQueue α) : Bool :=
  decide (0 < q.maxsize)

/-! ## Tool registry and destructive gate (`src/anteroom/tools/__init__.py`)

The fixed destructive patterns are Python regexes; they use only literals,
`\s+`, `\s*`, `\b` and one two-way alternation, so they are embedded as token
lists for a small total matcher with exact `re` semantics on those constructs. -/

/-- The regex class `\s` (Python whitespace, ASCII part; commands are ASCII
after normalisation). -/
def isPyWs (c : Char) : Bool :=
  c = ' ' || c = '\t' || c = '\n' || c = '\r' || c = '\x0b' || c = '\x0c'

/-- The Python regex word class `\w` (no `re.ASCII`, so Unicode-aware:
`Py_UNICODE_ISALNUM` or underscore), tabulated exactly for every code point
below U+0100: ASCII letters, digits and underscore, the Latin-1 letters
(`0xAA`, `0xB5`, `0xBA`, `0xC0-0xD6`, `0xD8-0xF6`, `0xF8-0xFF`) and the
Latin-1 numerics superscript one/two/three (`0xB9`, `0xB2`, `0xB3`) and the
vulgar fractions (`0xBC-0xBE`).  Code points at U+0100 and above, which
Python classifies by their Unicode properties, are outside this table;
theorems whose meaning depends on `\w` therefore restrict their inputs to
strings over the sub-U+0100 alphabet (`latin1String`), on which this
definition coincides with Python. -/
def pyWordChar (c : Char) : Bool :=
  (('a' ≤ c && c ≤ 'z') || ('A' ≤ c && c ≤ 'Z') || ('0' ≤ c && c ≤ '9') || c = '_')
  || (c.val = 0xAA || c.val = 0xB5 || c.val = 0xBA
      || c.val = 0xB9 || c.val = 0xB2 || c.val = 0xB3
      || (0xBC ≤ c.val && c.val ≤ 0xBE)
      || (0xC0 ≤ c.val && c.val ≤ 0xD6)
      || (0xD8 ≤ c.val && c.val ≤ 0xF6)
      || (0xF8 ≤ c.val && c.val ≤ 0xFF))

/-- Strings over the alphabet on which `pyWordChar` is an exact table of
Python's `\w`: every code point below U+0100 (ASCII plus the Latin-1 block). -/
def latin1String (s : String) : Bool :=
  s.toList.all (fun c => c.val < 0x100)

/-- One token of an embedded pattern: a literal character, `\s+`, `\s*`, or a
word boundary `\b`. -/
inductive RTok where
  | lit : Char → RTok
  | wsPlus : RTok
  | wsStar : RTok
  | wb : RTok
deriving Repr, DecidableEq

/-- Whether the character before the current position is a word character
(string start counts as non-word). -/
def isWordOpt (prev : Option Char) : Bool :=
  match prev with
  | none => false
  | some c => pyWordChar c

/-- Whether the character at the current position is a word character
(string end counts as non-word). -/
def isWordHead (cs : List Char) : Bool :=
  match cs with
  | [] => false
  | c :: _ => pyWordChar c

/-- Fuelled worker for `matchAt` (structural recursion on the fuel, so the
kernel can evaluate it).  Every step shrinks `cs.length + pat.length`, so any
fuel above that bound is sufficient and the `0` case is unreachable from the
wrapper.  `prev` is the character before the position (for `\b`).  `\s+`
consumes one whitespace character and then behaves as `\s*`; `\s*` tries both
matching on and consuming one more whitespace character, which coincides with
Python `re` since only the existence of a match matters. -/
def matchAtF : Nat → Option Char → List Char → List RTok → Bool
  | 0, _, _, _ => false
  | f + 1, prev, cs, pat =>
    match cs, pat with
    | _, [] => true
    | cs2, .wb :: ps => (isWordOpt prev != isWordHead cs2) && matchAtF f prev cs2 ps
    | [], .lit _ :: _ => false
    | c2 :: rest, .lit c :: ps => c2 = c && matchAtF f (some c2) rest ps
    | [], .wsPlus :: _ => false
    | c2 :: rest, .wsPlus :: ps => isPyWs c2 && matchAtF f (some c2) rest (.wsStar :: ps)
    | cs2, .wsStar :: ps =>
        matchAtF f prev cs2 ps
        || (match cs2 with
            | [] => false
            | c2 :: rest => isPyWs c2 && matchAtF f (some c2) rest (RTok.wsStar :: ps))

/-- Match a pattern at the current position (sufficient fuel supplied). -/
def matchAt (prev : Option Char) (cs : List Char) (pat : List RTok) : Bool :=
  matchAtF (cs.length + pat.length + 1) prev cs pat

/-- `re.search`: try the pattern at every position of the string. -/
def searchFrom (pat : List RTok) : Option Char → List Char → Bool
  | prev, [] => matchAt prev [] pat
  | prev, c :: rest => matchAt prev (c :: rest) pat || searchFrom pat (some c) rest

/-- Literal tokens for a string. -/
def lits (s : String) : List RTok :=
  s.toList.map RTok.lit

/-- `\brm\s+` -/
def patRm : List RTok := [.wb] ++ lits "rm" ++ [.wsPlus]

/-- `\brmdir\b` -/
def patRmdir : List RTok := [.wb] ++ lits "rmdir" ++ [.wb]

/-- First branch of `\bgit\s+push\s+(-f|--force)\b`. -/
def patGitPushF : List RTok :=
  [.wb] ++ lits "git" ++ [.wsPlus] ++ lits "push" ++ [.wsPlus] ++ lits "-f" ++ [.wb]

/-- Second branch of `\bgit\s+push\s+(-f|--force)\b`. -/
def patGitPushForce : List RTok :=
  [.wb] ++ lits "git" ++ [.wsPlus] ++ lits "push" ++ [.wsPlus] ++ lits "--force" ++ [.wb]

/-- `\bgit\s+reset\s+--hard\b` -/
def patGitResetHard : List RTok :=
  [.wb] ++ lits "git" ++ [.wsPlus] ++ lits "reset" ++ [.wsPlus] ++ lits "--hard" ++ [.wb]

/-- `\bgit\s+clean\b` -/
def patGitClean : List RTok := [.wb] ++ lits "git" ++ [.wsPlus] ++ lits "clean" ++ [.wb]

/-- `\bgit\s+checkout\s+\.\b` -/
def patGitCheckoutDot : List RTok :=
  [.wb] ++ lits "git" ++ [.wsPlus] ++ lits "checkout" ++ [.wsPlus] ++ lits "." ++ [.wb]

/-- `\bdrop\s+table\b` -/
def patDropTable : List RTok := [.wb] ++ lits "drop" ++ [.wsPlus] ++ lits "table" ++ [.wb]

/-- `\bdrop\s+database\b` -/
def patDropDatabase : List RTok :=
  [.wb] ++ lits "drop" ++ [.wsPlus] ++ lits "database" ++ [.wb]

/-- `\btruncate\s+` -/
def patTruncateWs : List RTok := [.wb] ++ lits "truncate" ++ [.wsPlus]

/-- `>\s*/dev/` -/
def patDevRedirect : List RTok := [.lit '>', .wsStar] ++ lits "/dev/"

/-- `\bchmod\s+777\b` -/
def patChmod777 : List RTok := [.wb] ++ lits "chmod" ++ [.wsPlus] ++ lits "777" ++ [.wb]

/-- `\bkill\s+-9\b` -/
def patKill9 : List RTok := [.wb] ++ lits "kill" ++ [.wsPlus] ++ lits "-9" ++ [.wb]

/-- `_DESTRUCTIVE_PATTERNS` (the push alternation expanded into its branches). -/
def DESTRUCTIVE_PATTERNS : List (List RTok) :=
  [patRm, patRmdir, patGitPushF, patGitPushForce, patGitResetHard, patGitClean,
   patGitCheckoutDot, patDropTable, patDropDatabase, patTruncateWs,
   patDevRedirect, patChmod777, patKill9]

/-- Python `str.lower()` restricted to code points below U+0100. -/
def pyLower (c : Char) : Char :=
  if 'A' ≤ c && c ≤ 'Z' then Char.ofNat (c.toNat + 32)
  else if 0xC0 ≤ c.val && c.val ≤ 0xDE && c.val ≠ 0xD7 then Char.ofNat (c.toNat + 32)
  else c

/-- Helper for `collapseWs`: `prevWs` records whether the previous character
was whitespace (so a run emits a single space). -/
def collapseWsAux (prevWs : Bool) : List Char → List Char
  | [] => []
  | c :: cs =>
    if isPyWs c then
      if prevWs then collapseWsAux true cs
      else ' ' :: collapseWsAux true cs
    else c :: collapseWsAux false cs

/-- `re.sub(r"\s+", " ", s)`: collapse every whitespace run to one space. -/
def collapseWs (cs : List Char) : List Char :=
  collapseWsAux false cs

/-- Python `str.strip()`: drop leading and trailing whitespace. -/
def pyStrip (cs : List Char) : List Char :=
  ((cs.dropWhile isPyWs).reverse.dropWhile isPyWs).reverse

/-- `_normalize_command`: collapse whitespace runs to single spaces, strip,
and case-fold. -/
def normalize_command (command : String) : String :=
  String.mk ((pyStrip (collapseWs command.toList)).map pyLower)

/-- `_is_destructive_command`: search the normalised command with every
destructive pattern. -/
def is_destructive_command (command : String) : Bool :=
  DESTRUCTIVE_PATTERNS.any (fun p => searchFrom p none (normalize_command command).toList)

/-- A JSON-ish value for tool argument and result dictionaries. -/
inductive JVal where
  | str : String → JVal
  | num : Int → JVal
deriving Repr, DecidableEq

/-- A structured map (tool arguments, tool results). -/
abbrev JDict := List (String × JVal)

/-- `ToolRegistry`: the handler map and the optional destructive-confirmation
callback.  Handlers are opaque argument-to-result functions; the async
callback is modelled as a boolean-valued function of the prompt message. -/
structure ToolRegistry where
  handlers : List (String × (JDict → JDict))
  confirm_callback : Option (String → Bool)

/-- `arguments.get("command", "")` (the bash tool declares `command : string`). -/
def getCommandArg (args : JDict) : String :=
  match alookup "command" args with
  | some (.str s) => s
  | _ => ""

/-- Outcome of `call_tool`: the result dict (or the unknown-tool error), plus
whether the confirmation callback was invoked. -/
structure CallOutcome where
  result : Except String JDict
  askedConfirm : Bool
deriving Repr

/-- `ToolRegistry.call_tool`: look up the handler; the destructive gate runs
only when a confirmation callback is set and the tool name is exactly
`"bash"`; a refused confirmation short-circuits with the cancellation dict. -/
def ToolRegistry.call_tool (reg : ToolRegistry) (name : String) (args : JDict) :
    CallOutcome :=
  match alookup name reg.handlers with
  | none => ⟨.error ("Unknown built-in tool: " ++ name), false⟩
  | some handler =>
    match reg.confirm_callback with
    | some cb =>
      if name = "bash" then
        let command := getCommandArg args
        if is_destructive_command command then
          if cb ("Destructive command: " ++ command)
          then ⟨.ok (handler args), true⟩
          else ⟨.ok [("error", .str "Command cancelled by user"),
                     ("exit_code", .num (-1))], true⟩
        else ⟨.ok (handler args), false⟩
      else ⟨.ok (handler args), false⟩
    | none => ⟨.ok (handler args), false⟩

/-! ## Store (`src/parlor/db.py`, `src/parlor/services/storage.py`) -/

/-- The `messages.role` CHECK constraint of `_SCHEMA`:
`role IN ('user', 'assistant', 'system')`. -/
def messageRoleAllowed (role : String) : Bool :=
  role = "user" || role = "assistant" || role = "system"

/-- The `tool_calls.status` CHECK constraint of `_SCHEMA`:
`status IN ('pending', 'success', 'error')`. -/
def toolStatusAllowed (status : String) : Bool :=
  status = "pending" || status = "success" || status = "error"

/-- A row of `messages` (timestamps omitted; no claim touches them). -/
structure MessageRow where
  id : String
  conversation_id : String
  role : String
  content : String
  position : Nat
deriving Repr, DecidableEq

/-- A row of `tool_calls` (timestamp omitted). -/
structure ToolCallRow where
  id : String
  message_id : String
  tool_name : String
  server_name : String
  input_json : String
  output_json : Option String
  status : String
deriving Repr, DecidableEq

/-- The store tables the claims touch (conversations by id). -/
structure Db where
  conversations : List String
  messages : List MessageRow
  tool_calls : List ToolCallRow
deriving Repr, DecidableEq

/-- `SELECT COALESCE(MAX(position), -1) + 1 FROM messages WHERE conversation_id = ?`. -/
def nextPosition (db : Db) (conversation_id : String) : Nat :=
  ((db.messages.filter (fun m => m.conversation_id = conversation_id)).map
      (fun m => m.position + 1)).foldl max 0

/-- `storage.create_message`: compute the next position and insert inside one
transaction, subject to the conversation foreign key (`PRAGMA
foreign_keys=ON`) and the role CHECK; an integrity violation rolls the
transaction back and surfaces as the error. -/
def create_message (db : Db) (mid conversation_id role content : String) :
    Except String (Db × MessageRow) :=
  if ¬ db.conversations.contains conversation_id then
    .error "FOREIGN KEY constraint failed"
  else if ¬ messageRoleAllowed role then
    .error "CHECK constraint failed: role"
  else
    let row : MessageRow :=
      ⟨mid, conversation_id, role, content, nextPosition db conversation_id⟩
    .ok ({ db with messages := db.messages ++ [row] }, row)

/-- `storage.create_tool_call`: insert a `pending` record with NULL output. -/
def create_tool_call (db : Db)
    (tcid message_id tool_name server_name input_json : String) : Db :=
  { db with tool_calls := db.tool_calls ++
      [⟨tcid, message_id, tool_name, server_name, input_json, none, "pending"⟩] }

/-- `storage.update_tool_call`: the unconditional
`UPDATE tool_calls SET output_json = ?, status = ? WHERE id = ?` followed by a
commit.  The schema can only enforce the status CHECK; an id that matches no
row is a silent no-op in SQL, and an existing row is overwritten whatever its
current status. -/
def update_tool_call (db : Db) (tool_call_id : String) (output_json : String)
    (status : String) : Except String Db :=
  if ¬ toolStatusAllowed status then .error "CHECK constraint failed: status"
  else .ok { db with tool_calls := db.tool_calls.map (fun r =>
    if r.id = tool_call_id
    then { r with output_json := some output_json, status := status }
    else r) }

/-- `os.path.basename` on POSIX: the part after the last `/`. -/
def afterLastSlash (cs : List Char) : List Char :=
  cs.foldl (fun acc c => if c = '/' then [] else acc ++ [c]) []

/-- The keep-class of `re.sub(r"[^\w.\-]", "_", safe)`: word characters plus
dot and hyphen. -/
def sanitizeKeep (c : Char) : Bool :=
  pyWordChar c || c = '.' || c = '-'

/-- `storage._sanitize_filename`: strip directory components, drop NUL bytes,
replace every character outside the keep-class with `_`, and fall back to
"unnamed" when the result is empty. -/
def sanitize_filename (filename : String) : String :=
  let base := afterLastSlash filename.toList
  let noNul := base.filter (fun c => c ≠ '\x00')
  let safe := noNul.map (fun c => if sanitizeKeep c then c else '_')
  if safe.isEmpty then "unnamed" else String.mk safe

/-- Modelled from the spec: the claim's sanitiser keeps exactly the ASCII
class `[A-Za-z0-9._-]` and replaces every other character with `_`. -/
def spec_asciiKeep (c : Char) : Bool :=
  ('a' ≤ c && c ≤ 'z') || ('A' ≤ c && c ≤ 'Z') || ('0' ≤ c && c ≤ '9')
  || c = '.' || c = '_' || c = '-'

/-- Modelled from the spec: sanitisation as the claim words it (directory
components stripped, then every character outside `[A-Za-z0-9._-]` replaced
with `_`). -/
def spec_sanitize_filename (filename : String) : String :=
  let base := afterLastSlash filename.toList
  let noNul := base.filter (fun c => c ≠ '\x00')
  let safe := noNul.map (fun c => if spec_asciiKeep c then c else '_')
  if safe.isEmpty then "unnamed" else String.mk safe

/-- `Path.resolve()` over components: empty and `.` components vanish, `..`
pops (the filesystem root absorbs further `..`). -/
def resolveComponents (base : List String) : List String → List String
  | [] => base
  | c :: rest =>
    if c = "" ∨ c = "." then resolveComponents base rest
    else if c = ".." then resolveComponents base.dropLast rest
    else resolveComponents (base ++ [c]) rest

/-- `PurePath.is_relative_to`: the base path is a prefix of the path. -/
def isRelativeToComponents (p base : List String) : Bool :=
  base.isPrefixOf p

/-- Helper for `splitSlash`: split on `/` with an accumulator of the current
component's characters in reverse. -/
def splitSlashAux (acc : List Char) : List Char → List String
  | [] => [String.mk acc.reverse]
  | c :: cs =>
    if c = '/' then String.mk acc.reverse :: splitSlashAux [] cs
    else splitSlashAux (c :: acc) cs

/-- Split a POSIX path string into components (as `str.split("/")`). -/
def splitSlash (s : String) : List String :=
  splitSlashAux [] s.toList

/-- `ALLOWED_MIME_TYPES` from the source. -/
def ALLOWED_MIME_TYPES : List String :=
  ["text/plain", "text/markdown", "text/css", "text/csv", "text/xml",
   "application/json", "application/pdf", "application/x-yaml",
   "application/yaml", "image/png", "image/jpeg", "image/gif", "image/webp",
   "application/javascript", "text/javascript", "application/x-python-code",
   "text/x-python", "application/octet-stream"]

/-- `MAX_ATTACHMENT_SIZE` from the source (10 MB). -/
def MAX_ATTACHMENT_SIZE : Nat := 10 * 1024 * 1024

/-- The attachment row / return value of `save_attachment`. -/
structure AttachmentRec where
  id : String
  message_id : String
  filename : String
  mime_type : String
  size_bytes : Nat
  storage_path : String
deriving Repr, DecidableEq

/-- `storage.save_attachment` (the byte write and DB insert abstracted into
the returned record): size cap, mime allow-list, filename sanitisation, the
storage path under the attachment root, and the containment check
`full_path.is_relative_to(data_dir.resolve())`, in source order.  `data_dir`
is the already-resolved data root as path components; the fresh uuid `aid` is
a parameter. -/
def save_attachment (message_id conversation_id filename mime_type : String)
    (dataLen : Nat) (aid : String) (data_dir : List String) :
    Except String AttachmentRec :=
  if MAX_ATTACHMENT_SIZE < dataLen then
    .error "File exceeds maximum size of 10 MB"
  else if ¬ ALLOWED_MIME_TYPES.contains mime_type then
    .error "Unsupported file type"
  else
    let safe_filename := sanitize_filename filename
    let storage_path :=
      "attachments/" ++ conversation_id ++ "/" ++ aid ++ "_" ++ safe_filename
    let full_path := resolveComponents data_dir (splitSlash storage_path)
    if ¬ isRelativeToComponents full_path data_dir then .error "Invalid filename"
    else .ok ⟨aid, message_id, safe_filename, mime_type, dataLen, storage_path⟩

/-! ## MCP manager (`src/parlor/services/mcp_manager.py`) -/

/-- An IP address: version tag and numeric value. -/
inductive IpAddr where
  | v4 : Nat → IpAddr
  | v6 : Nat → IpAddr
deriving Repr, DecidableEq

/-- An `ipaddress.ip_network`. -/
structure IpNetwork where
  isV6 : Bool
  base : Nat
  maskLen : Nat
deriving Repr, DecidableEq

/-- Dotted-quad value. -/
def v4addr (a b c d : Nat) : Nat :=
  ((a * 256 + b) * 256 + c) * 256 + d

/-- `addr in network` (`_BaseNetwork.__contains__`): always false on a version
mismatch, else compare the prefix bits. -/
def IpNetwork.containsAddr (n : IpNetwork) (ip : IpAddr) : Bool :=
  match ip with
  | .v4 a => !n.isV6 && decide (a / 2 ^ (32 - n.maskLen) = n.base / 2 ^ (32 - n.maskLen))
  | .v6 a => n.isV6 && decide (a / 2 ^ (128 - n.maskLen) = n.base / 2 ^ (128 - n.maskLen))

/-- `_BLOCKED_NETWORKS` from the source: loopback, RFC1918 private,
link-local (v4 and v6), and unique-local. -/
def BLOCKED_NETWORKS : List IpNetwork :=
  [⟨false, v4addr 127 0 0 0, 8⟩,
   ⟨false, v4addr 10 0 0 0, 8⟩,
   ⟨false, v4addr 172 16 0 0, 12⟩,
   ⟨false, v4addr 192 168 0 0, 16⟩,
   ⟨false, v4addr 169 254 0 0, 16⟩,
   ⟨true, 1, 128⟩,
   ⟨true, 0xfc00 * 2 ^ 112, 7⟩,
   ⟨true, 0xfe80 * 2 ^ 112, 10⟩]

/-- Modelled from the spec: the claim's blocked set also names the CGNAT
range `100.64.0.0/10` (carrier-grade NAT, home of cloud metadata services
such as `100.100.100.200`); the source list does not include it. -/
def spec_BLOCKED_NETWORKS : List IpNetwork :=
  BLOCKED_NETWORKS ++ [⟨false, v4addr 100 64 0 0, 10⟩]

/-- The hostname of a parsed URL: an IP literal (`ipaddress.ip_address(h)`
succeeds) or a DNS name (it raises).  `urlparse` lowercases hostnames, so the
except-branch test `"Blocked" in str(e)` can only see the manager's own
raises, never a hostname echoed in the parse error. -/
inductive Host where
  | ip : IpAddr → Host
  | name : String → Host
deriving Repr, DecidableEq

/-- The internal-alias check `hostname in ("localhost", "metadata.google.internal")`
(an IP literal never equals either string). -/
def Host.aliasBlocked : Host → Bool
  | .ip _ => false
  | .name s => s = "localhost" || s = "metadata.google.internal"

/-- Membership of an address in any network of a list. -/
def addrBlocked (nets : List IpNetwork) (a : IpAddr) : Bool :=
  nets.any (fun n => n.containsAddr a)

/-- The address part of `_validate_sse_url` (its `try`/`except ValueError`
block): on an IP-literal host, check it against the blocked list; on a DNS
name, resolve (the `dns` oracle, `none` modelling `socket.gaierror`) and
check every resolved address against the blocked list. -/
def hostAddrCheck (host : Host) (dns : String → Option (List IpAddr)) :
    Except String Unit :=
  match host with
  | .ip a =>
    if addrBlocked BLOCKED_NETWORKS a then .error "Blocked internal IP" else .ok ()
  | .name s =>
    match dns s with
    | none => .error "Cannot resolve hostname"
    | some addrs =>
      if addrs.any (addrBlocked BLOCKED_NETWORKS)
      then .error "Hostname resolves to blocked IP"
      else .ok ()

/-- `_validate_sse_url`: scheme allow-list, internal-alias rejection, then
the address checks of `hostAddrCheck`. -/
def validate_sse_url (scheme : String) (host : Host)
    (dns : String → Option (List IpAddr)) : Except String Unit :=
  if ¬ (scheme = "http" ∨ scheme = "https") then .error "Unsupported URL scheme"
  else if host.aliasBlocked then .error "Blocked internal hostname"
  else hostAddrCheck host dns

/-- Transport selector of a provider config. -/
inductive Transport where
  | stdio
  | sse
  | other : String → Transport
deriving Repr, DecidableEq

/-- `McpServerConfig`: name, transport, optional command (Python falsiness of
the empty command is modelled as `none`) and optional URL given as its parsed
scheme and host. -/
structure McpServerConfig where
  name : String
  transport : Transport
  command : Option String
  url : Option (String × Host)
deriving Repr, DecidableEq

/-- A sub-resource acquired while connecting: the stdio subprocess (with its
anyio task group) or SSE socket entered at `stack.enter_async_context`, and
the client-session background task. -/
inductive Resource where
  | transportRes : String → Resource
  | sessionRes : String → Resource
deriving Repr, DecidableEq

/-- An `AsyncExitStack`: the contexts entered so far and whether `aclose()`
has run (releasing all of them). -/
structure ExitStack where
  resources : List Resource
  closed : Bool
deriving Repr, DecidableEq

/-- The `status` field of a `_server_status` entry. -/
inductive StatusKind where
  | connected
  | error
  | disconnected
deriving Repr, DecidableEq

/-- A `_server_status` dict value. -/
structure ServerStatus where
  kind : StatusKind
  tool_count : Nat
  error_message : Option String
deriving Repr, DecidableEq

/-- The manager's per-provider maps (`_exit_stacks`, `_sessions`,
`_server_tools`, `_tool_to_server`, `_server_status`); a session value is
abstracted to the name of the provider owning it. -/
structure ManagerState where
  exit_stacks : List (String × ExitStack)
  sessions : List (String × String)
  server_tools : List (String × List String)
  tool_to_server : List (String × String)
  server_status : List (String × ServerStatus)
deriving Repr, DecidableEq

/-- A fresh manager. -/
def ManagerState.empty : ManagerState := ⟨[], [], [], [], []⟩

/-- `_rebuild_tool_map`: clear, then refill from `_server_tools` in insertion
order; on a name collision the later registration wins (logged). -/
def rebuild_tool_map (st : ManagerState) : ManagerState :=
  { st with tool_to_server :=
      st.server_tools.foldl (fun m e => e.2.foldl (fun m2 t => aset t e.1 m2) m) [] }

/-- Oracle for the effects of one `_connect_one` run: whether `shutil.which`
resolves the command, whether entering the transport context, creating the
client session, and `initialize()` succeed, the `list_tools` answer (`none`
models a raised transport error), and the DNS resolver used by the URL
validation. -/
structure ConnectEnv where
  whichOk : Bool
  transportOk : Bool
  sessionOk : Bool
  initOk : Bool
  listToolsRes : Option (List String)
  dns : String → Option (List IpAddr)

/-- Outcome of `_connect_one`: the new manager state and the resources still
alive when the call returns (closing a stack releases the resources it
holds). -/
structure ConnectResult where
  state : ManagerState
  alive : List Resource
deriving Repr, DecidableEq

/-- The `except BaseException` handler of `_connect_one`: `stack.aclose()`
releases every acquired resource, then the error status is recorded.  The
handler does NOT remove entries that earlier lines stored in `_exit_stacks`
and `_sessions`; when the stack had been stored, its dict entry now points at
a closed stack. -/
def connectFail (st : ManagerState) (name : String) (msg : String)
    (stackRes : List Resource) (stackStored : Bool) : ConnectResult :=
  let st2 := if stackStored
    then { st with exit_stacks := aset name ⟨stackRes, true⟩ st.exit_stacks }
    else st
  ⟨{ st2 with server_status := aset name ⟨.error, 0, some msg⟩ st2.server_status }, []⟩

/-- `_connect_one` from the transport open onward (common to the stdio and
SSE branches): enter the transport context, enter the client session,
`initialize()`, store the stack and session in the maps, then query
`list_tools`, record the catalogue, rebuild the tool map and mark connected. -/
def connectFromTransport (cfg : McpServerConfig) (env : ConnectEnv)
    (st : ManagerState) : ConnectResult :=
  if ¬ env.transportOk then connectFail st cfg.name "transport failed" [] false
  else
    let res1 : List Resource := [.transportRes cfg.name]
    if ¬ env.sessionOk then connectFail st cfg.name "session failed" res1 false
    else
      let res2 := res1 ++ [.sessionRes cfg.name]
      if ¬ env.initOk then connectFail st cfg.name "initialize failed" res2 false
      else
        let st1 := { st with
          exit_stacks := aset cfg.name ⟨res2, false⟩ st.exit_stacks,
          sessions := aset cfg.name cfg.name st.sessions }
        match env.listToolsRes with
        | none => connectFail st1 cfg.name "list_tools failed" res2 true
        | some tools =>
          let st2 := rebuild_tool_map
            { st1 with server_tools := aset cfg.name tools st1.server_tools }
          let ok : ServerStatus := ⟨.connected, tools.length, none⟩
          let st3 := { st2 with server_status := aset cfg.name ok st2.server_status }
          ⟨st3, res2⟩

/-- `McpManager._connect_one`: validate (command lookup for stdio, URL
validation for SSE), then connect; an invalid transport/command/url
combination records an error status directly without raising. -/
def connect_one (cfg : McpServerConfig) (env : ConnectEnv) (st : ManagerState) :
    ConnectResult :=
  match cfg.transport, cfg.command, cfg.url with
  | .stdio, some command, _ =>
    if ¬ env.whichOk
    then connectFail st cfg.name ("MCP command not found on PATH: " ++ command) [] false
    else connectFromTransport cfg env st
  | .sse, _, some url =>
    match validate_sse_url url.1 url.2 env.dns with
    | .error msg => connectFail st cfg.name msg [] false
    | .ok _ => connectFromTransport cfg env st
  | _, _, _ =>
    let bad : ServerStatus := ⟨.error, 0, some "Invalid transport config"⟩
    ⟨{ st with server_status := aset cfg.name bad st.server_status }, []⟩

/-- Resources alive after a connect that no stored open exit stack owns:
leaked subprocesses, sockets or background tasks. -/
def leakedResources (r : ConnectResult) : List Resource :=
  r.alive.filter (fun res =>
    !(r.state.exit_stacks.any (fun e => !e.2.closed && e.2.resources.contains res)))

/-! ## Chat streaming turn (`src/parlor/services/ai_service.py`,
`src/parlor/routers/chat.py`) -/

/-- A tool call accumulated by `stream_chat` and handed to the generator. -/
structure ToolCallReq where
  id : String
  function_name : String
  argumentsJson : String
deriving Repr, DecidableEq

/-- What one `stream_chat` pass amounts to, as observed by `event_generator`:

* `cancelled text` — the cancel signal was seen mid-stream after the text
  accumulated so far; the stream is closed and `done` yielded
  (`ai_service.py` lines 47-51);
* `toolCalls text tcs` — finish reason `tool_calls` after accumulating
  `text`, one `tool_call` event per accumulated call;
* `stop text` — finish reason `stop`, yielding `done`;
* `errorOut` — the request or stream raised; an `error` event is yielded. -/
inductive IterationOutcome where
  | cancelled : String → IterationOutcome
  | toolCalls : String → List ToolCallReq → IterationOutcome
  | stop : String → IterationOutcome
  | errorOut : IterationOutcome
deriving Repr, DecidableEq

/-- What a finished turn left behind: messages persisted via
`storage.create_message` as (role, content), tool-call completions persisted
via `storage.update_tool_call` as (id, status), and the SSE events yielded
(token and title events elided; they do not bear on the claims). -/
structure ChatTurnResult where
  persisted : List (String × String)
  tool_completions : List (String × String)
  events : List String
deriving Repr, DecidableEq

/-- The per-call dispatch block of `event_generator` (chat.py lines 169-205):
persist a pending record, call the tool through the MCP manager, persist the
completion as success or error, yield `tool_call_end`, and append the
tool-role wire message.  Returns the persisted completions and the yielded
events. -/
def dispatchToolCalls (toolRes : ToolCallReq → Except String String) :
    List ToolCallReq → List (String × String) × List String
  | [] => ([], [])
  | tc :: rest =>
    let c := match toolRes tc with
      | .ok _ => (tc.id, "success")
      | .error _ => (tc.id, "error")
    let rr := dispatchToolCalls toolRes rest
    (c :: rr.1, "tool_call_end" :: rr.2)

/-- The `while True` loop of `event_generator` (chat.py lines 114-219).
`oracle i` is what the stream of iteration `i` delivered; `fuel` bounds how
many iterations are unfolded: `none` means the loop was still running after
`fuel` iterations (the source loop has no iteration bound of its own).

Per source: an `error` stream event returns without `done`; a stream that
ends with no pending tool calls (normal stop, or a cancel observed mid-stream,
which makes `stream_chat` close the stream and yield `done`) breaks the loop,
after which the accumulated assistant text, when non-empty, is persisted via
`create_message` (line 210-211) and `done` is yielded; a stream that
delivered tool calls persists the assistant message carrying them, yields
`tool_call_start` for each, dispatches them, and loops. -/
def event_generator_loop (oracle : Nat → IterationOutcome)
    (toolRes : ToolCallReq → Except String String) :
    Nat → Nat → List (String × String) → List (String × String) → List String →
    Option ChatTurnResult
  | 0, _, _, _, _ => none
  | fuel + 1, i, persisted, completions, events =>
    match oracle i with
    | .errorOut => some ⟨persisted, completions, events ++ ["error"]⟩
    | .cancelled text =>
      some ⟨persisted ++ (if text = "" then [] else [("assistant", text)]),
            completions, events ++ ["done"]⟩
    | .stop text =>
      some ⟨persisted ++ (if text = "" then [] else [("assistant", text)]),
            completions, events ++ ["done"]⟩
    | .toolCalls text tcs =>
      match tcs with
      | [] =>
        some ⟨persisted ++ (if text = "" then [] else [("assistant", text)]),
              completions, events ++ ["done"]⟩
      | _ :: _ =>
        let starts := tcs.map (fun _ => "tool_call_start")
        let d := dispatchToolCalls toolRes tcs
        event_generator_loop oracle toolRes fuel (i + 1)
          (persisted ++ [("assistant", text)])
          (completions ++ d.1)
          (events ++ starts ++ d.2)

/-! ## Association-list lemmas -/

/-- Looking up the key just set yields the new value. -/
theorem alookup_aset_self {β : Type} (k : String) (v : β) (l : List (String × β)) :
    alookup k (aset k v l) = some v := by
  induction l with
  | nil => simp [aset, alookup]
  | cons hd tl ih =>
    obtain ⟨k2, v2⟩ := hd
    by_cases h : k2 = k
    · simp [aset, alookup, h]
    · simp [aset, alookup, h, ih]

/-- Setting one key leaves every other lookup unchanged. -/
theorem alookup_aset_ne {β : Type} (k k2 : String) (v : β) (l : List (String × β))
    (h : k2 ≠ k) : alookup k2 (aset k v l) = alookup k2 l := by
  have hne : ¬ k = k2 := fun he => h he.symm
  induction l with
  | nil => simp [aset, alookup, hne]
  | cons hd tl ih =>
    obtain ⟨k3, v3⟩ := hd
    by_cases h3 : k3 = k
    · subst h3
      simp [aset, alookup, hne]
    · simp only [aset, if_neg h3, alookup]
      by_cases h2 : k3 = k2
      · simp [h2]
      · simp [h2, ih]

/-! ## Claim C7: one-shot approval resolution -/

/-- A resolve against an entry whose future is already done returns false and
leaves the state unchanged, whatever the owner. -/
theorem resolve_after_done (st : ApprovalState) (id : String) (q : PendingApproval)
    (hq : alookup id st.pending = some q) (hd : q.futDone = true) (v : Bool)
    (o : String) : ApprovalManager.resolve st id v o = (st, false) := by
  unfold ApprovalManager.resolve
  rw [hq]
  by_cases ho : q.owner ≠ o
  · simp [ho]
  · simp [ho, hd]

/-- A whole sequence of resolves against a fulfilled entry returns all-false
and leaves the state unchanged. -/
theorem resolveMany_after_done (st : ApprovalState) (id : String)
    (q : PendingApproval) (hq : alookup id st.pending = some q)
    (hd : q.futDone = true) (calls : List (Bool × String)) :
    resolveMany st id calls = (st, List.replicate calls.length false) := by
  induction calls with
  | nil => simp [resolveMany]
  | cons c cs ih =>
    obtain ⟨v, o⟩ := c
    simp [resolveMany, resolve_after_done st id q hq hd v o, ih, List.replicate_succ]

/-- No true in a replicated false list. -/
theorem count_true_replicate_false (n : Nat) :
    (List.replicate n false).count true = 0 := by
  induction n with
  | zero => rfl
  | succ m ih => simp [List.replicate_succ, List.count_cons, ih]

/-- Claim C7: for an approval id registered and unresolved, among resolve
calls carrying the registered owner exactly the first fulfils the slot and
returns true and every later call returns false; a resolve with a mismatched
owner, or for an unknown id, returns false and leaves the pending map
unchanged. -/
theorem approval_resolve_one_shot (st : ApprovalState) (id : String)
    (p : PendingApproval) (hfind : alookup id st.pending = some p)
    (hpend : p.futDone = false) (v : Bool) (rest : List (Bool × String))
    (_hown : ∀ c ∈ rest, c.2 = p.owner) :
    ((resolveMany st id ((v, p.owner) :: rest)).2.count true = 1
      ∧ (resolveMany st id ((v, p.owner) :: rest)).2.head? = some true)
    ∧ (∀ v2 o2, o2 ≠ p.owner → ApprovalManager.resolve st id v2 o2 = (st, false))
    ∧ (∀ id2 v2 o2, alookup id2 st.pending = none →
        ApprovalManager.resolve st id2 v2 o2 = (st, false)) := by
  have hres : ApprovalManager.resolve st id v p.owner =
      (⟨aset id { p with futDone := true, futResult := some v } st.pending⟩, true) := by
    simp [ApprovalManager.resolve, hfind, hpend]
  have hfind2 : alookup id
      (ApprovalState.pending ⟨aset id { p with futDone := true, futResult := some v } st.pending⟩)
      = some { p with futDone := true, futResult := some v } :=
    alookup_aset_self id _ st.pending
  have hrest := resolveMany_after_done
    ⟨aset id { p with futDone := true, futResult := some v } st.pending⟩ id
    { p with futDone := true, futResult := some v } hfind2 rfl rest
  refine ⟨⟨?_, ?_⟩, ?_, ?_⟩
  · simp [resolveMany, hres, hrest, List.count_cons, count_true_replicate_false]
  · simp [resolveMany, hres, hrest]
  · intro v2 o2 ho
    simp [ApprovalManager.resolve, hfind, Ne.symm ho]
  · intro id2 v2 o2 hnone
    unfold ApprovalManager.resolve
    rw [hnone]

/-- Witness for C7 at a concrete pending map with three resolve calls. -/
theorem approval_resolve_one_shot_witness :
    ((resolveMany ⟨[("a", ⟨"msg", 0, "o1", false, none⟩)]⟩ "a"
        ((true, "o1") :: [(false, "o1"), (true, "o1")])).2.count true = 1
      ∧ (resolveMany ⟨[("a", ⟨"msg", 0, "o1", false, none⟩)]⟩ "a"
          ((true, "o1") :: [(false, "o1"), (true, "o1")])).2.head? = some true)
    ∧ (∀ v2 o2, o2 ≠ "o1" →
        ApprovalManager.resolve ⟨[("a", ⟨"msg", 0, "o1", false, none⟩)]⟩ "a" v2 o2
          = (⟨[("a", ⟨"msg", 0, "o1", false, none⟩)]⟩, false))
    ∧ (∀ id2 v2 o2, alookup id2 [("a", (⟨"msg", 0, "o1", false, none⟩ : PendingApproval))] = none →
        ApprovalManager.resolve ⟨[("a", ⟨"msg", 0, "o1", false, none⟩)]⟩ id2 v2 o2
          = (⟨[("a", ⟨"msg", 0, "o1", false, none⟩)]⟩, false)) :=
  approval_resolve_one_shot ⟨[("a", ⟨"msg", 0, "o1", false, none⟩)]⟩ "a"
    ⟨"msg", 0, "o1", false, none⟩ (by decide) (by decide) true
    [(false, "o1"), (true, "o1")] (by decide)

/-! ## Claim C6: event-bus delivery -/

/-- Claim C6 counterexample: `subscribe` creates `asyncio.Queue()` with
`maxsize = 0`, which asyncio treats as never-full — the returned queue is not
bounded: `put_nowait` still succeeds on a queue already holding 1000 items. -/
theorem event_bus_subscribe_unbounded :
    spec_boundedQueue (EventBus.subscribe (⟨[]⟩ : EventBus Nat) "conversation:1").2 = false
    ∧ (AQueue.put_nowait (⟨0, List.replicate 1000 7⟩ : AQueue Nat) 7).isSome = true := by
  exact ⟨rfl, rfl⟩

/-- Claim C6 amended: `subscribe` returns an unbounded queue (maxsize 0);
`publish` offers the event with the non-blocking `put_nowait` to every queue
currently subscribed on the channel (appending it whenever the queue is not
full, dropping it for that subscriber with a warning when it is), leaves
every other channel untouched, and — being a total function of the current
state — never blocks the publisher. -/
theorem event_bus_publish_delivers {α : Type} (bus : EventBus α)
    (channel : String) (x : α) (qs : List (AQueue α))
    (hsubs : alookup channel bus.subscribers = some qs) :
    alookup channel (bus.publish channel x).1.subscribers
        = some (qs.map (fun q => (offerEvent x q).1))
    ∧ (∀ q ∈ qs, q.full = false → (offerEvent x q).1.items = q.items ++ [x])
    ∧ (∀ q ∈ qs, q.full = true → (offerEvent x q).1 = q ∧ (offerEvent x q).2 = true)
    ∧ (∀ ch2, ch2 ≠ channel →
        alookup ch2 (bus.publish channel x).1.subscribers = alookup ch2 bus.subscribers)
    ∧ (bus.subscribe channel).2.maxsize = 0 := by
  refine ⟨?_, ?_, ?_, ?_, ?_⟩
  · simp [EventBus.publish, hsubs, alookup_aset_self]
  · intro q _ hfull
    simp [offerEvent, AQueue.put_nowait, hfull]
  · intro q _ hfull
    simp [offerEvent, AQueue.put_nowait, hfull]
  · intro ch2 hne
    simp [EventBus.publish, hsubs, alookup_aset_ne channel ch2 _ _ hne]
  · unfold EventBus.subscribe
    cases alookup channel bus.subscribers <;> rfl

/-- Witness for C6 amended on a one-subscriber bus. -/
theorem event_bus_publish_delivers_witness :
    alookup "c" ((EventBus.publish (⟨[("c", [⟨0, []⟩])]⟩ : EventBus Nat) "c" 5).1.subscribers)
      = some [⟨0, [5]⟩]
    ∧ ((⟨[("c", [⟨0, []⟩])]⟩ : EventBus Nat).subscribe "c").2.maxsize = 0 := by
  have h := event_bus_publish_delivers (⟨[("c", [⟨0, []⟩])]⟩ : EventBus Nat) "c" 5
    [⟨0, []⟩] (by decide)
  exact ⟨h.1.trans (by rfl), h.2.2.2.2⟩

/-! ## Claim C10: the destructive gate is bash-plus-callback only -/

/-- Claim C10: the confirmation gate runs only when the dispatched tool is
named exactly "bash" and a confirmation callback is set; for any other tool
name, or with no callback configured, `call_tool` invokes the handler
directly and no confirmation is consulted, whatever the arguments contain. -/
theorem call_tool_gate_only_bash (reg : ToolRegistry) (name : String)
    (args : JDict) (handler : JDict → JDict)
    (hh : alookup name reg.handlers = some handler)
    (hcase : name ≠ "bash" ∨ reg.confirm_callback = none) :
    reg.call_tool name args = ⟨.ok (handler args), false⟩ := by
  unfold ToolRegistry.call_tool
  rw [hh]
  rcases hcase with hn | hcb
  · cases hc : reg.confirm_callback with
    | none => rfl
    | some cb => simp [hn]
  · rw [hcb]

/-- Witness for C10: a non-bash tool receiving a destructive-looking command
argument is dispatched with no confirmation even though a callback is set. -/
theorem call_tool_gate_only_bash_witness :
    ToolRegistry.call_tool
        ⟨[("shell", fun _ => [("stdout", JVal.str "ok")])], some (fun _ => false)⟩
        "shell" [("command", JVal.str "rm -rf /tmp/x")]
      = ⟨.ok [("stdout", JVal.str "ok")], false⟩
    ∧ is_destructive_command "rm -rf /tmp/x" = true := by
  refine ⟨?_, by decide⟩
  exact call_tool_gate_only_bash
    ⟨[("shell", fun _ => [("stdout", JVal.str "ok")])], some (fun _ => false)⟩
    "shell" [("command", JVal.str "rm -rf /tmp/x")] (fun _ => [("stdout", JVal.str "ok")])
    rfl (Or.inl (by decide))

/-! ## Claim C2: tool-call completion transitions -/

/-- Overwriting a record's output and status is idempotent on the row list. -/
theorem map_overwrite_idem (id out status : String) (l : List ToolCallRow) :
    (l.map (fun r =>
        if r.id = id then { r with output_json := some out, status := status } else r)).map
      (fun r =>
        if r.id = id then { r with output_json := some out, status := status } else r)
      = l.map (fun r =>
        if r.id = id then { r with output_json := some out, status := status } else r) := by
  induction l with
  | nil => rfl
  | cons r rest ih =>
    simp only [List.map_cons, ih]
    by_cases hr : r.id = id
    · simp [hr]
    · simp [hr]

/-- Claim C2 counterexample: a record already resolved as (out1, success)
accepts a second, different completion (out2, error), which overwrites the
stored output and status — the claim requires any non-identical completion of
a resolved record to be rejected. -/
theorem update_tool_call_overwrites_resolved :
    update_tool_call
        ⟨["c1"], [], [⟨"t1", "m1", "search", "", "inj", some "out1", "success"⟩]⟩
        "t1" "out2" "error"
      = .ok ⟨["c1"], [], [⟨"t1", "m1", "search", "", "inj", some "out2", "error"⟩]⟩ := by
  rfl

/-- Claim C2 amended: `update_tool_call` is an unconditional overwrite of the
record's output and status for any status in the schema CHECK set: a repeated
identical completion is (trivially) idempotent, but a conflicting completion
of an already-resolved record is also accepted and overwrites it; neither the
pending-to-terminal transition nor the null-output-iff-pending connection is
enforced by this operation. -/
theorem update_tool_call_unconditional (db : Db) (id out status : String)
    (h : toolStatusAllowed status = true) :
    ∃ db2, update_tool_call db id out status = .ok db2
      ∧ db2.tool_calls = db.tool_calls.map (fun r =>
          if r.id = id then { r with output_json := some out, status := status } else r)
      ∧ db2.conversations = db.conversations
      ∧ db2.messages = db.messages
      ∧ update_tool_call db2 id out status = .ok db2 := by
  refine ⟨{ db with tool_calls := db.tool_calls.map (fun r =>
      if r.id = id then { r with output_json := some out, status := status } else r) },
    ?_, rfl, rfl, rfl, ?_⟩
  · simp [update_tool_call, h]
  · have hidem := map_overwrite_idem id out status db.tool_calls
    unfold update_tool_call
    rw [if_neg (fun hc => hc h)]
    exact congrArg Except.ok (by rw [hidem])

/-- Witness for C2 amended: completing a pending record. -/
theorem update_tool_call_unconditional_witness :
    ∃ db2, update_tool_call
        ⟨["c1"], [], [⟨"t1", "m1", "search", "", "inj", none, "pending"⟩]⟩
        "t1" "outj" "success" = .ok db2
      ∧ db2.tool_calls = [⟨"t1", "m1", "search", "", "inj", none, "pending"⟩].map (fun r =>
          if r.id = "t1" then { r with output_json := some "outj", status := "success" } else r)
      ∧ db2.conversations = ["c1"]
      ∧ db2.messages = []
      ∧ update_tool_call db2 "t1" "outj" "success" = .ok db2 :=
  update_tool_call_unconditional
    ⟨["c1"], [], [⟨"t1", "m1", "search", "", "inj", none, "pending"⟩]⟩
    "t1" "outj" "success" (by decide)

/-! ## Claim C9: message roles accepted by the store -/

/-- Claim C9 counterexample: the schema CHECK on `messages.role` admits only
user, assistant and system; inserting a message with role tool fails with an
integrity error, so a tool-role message cannot be persisted. -/
theorem create_message_rejects_tool_role :
    create_message ⟨["c1"], [], []⟩ "m1" "c1" "tool" "output"
      = .error "CHECK constraint failed: role" := by
  rfl

/-- Claim C9 amended: for an existing conversation, `create_message` accepts
exactly the roles user, assistant and system, storing the message at the next
position; role tool is rejected by the schema CHECK constraint (tool output
is persisted in the `tool_calls` table instead, and the tool-role wire
messages exist only in the in-memory request list). -/
theorem create_message_role_set (db : Db) (mid cid content role : String)
    (hconv : db.conversations.contains cid = true) :
    ((role = "user" ∨ role = "assistant" ∨ role = "system") →
      ∃ row, create_message db mid cid role content
          = .ok ({ db with messages := db.messages ++ [row] }, row)
        ∧ row.role = role ∧ row.content = content
        ∧ row.position = nextPosition db cid)
    ∧ (role = "tool" →
        create_message db mid cid role content
          = .error "CHECK constraint failed: role") := by
  have hmem : cid ∈ db.conversations := by simpa using hconv
  constructor
  · intro hrole
    have hallowed : messageRoleAllowed role = true := by
      rcases hrole with h | h | h <;> simp [messageRoleAllowed, h]
    exact ⟨⟨mid, cid, role, content, nextPosition db cid⟩,
      by simp [create_message, hmem, hallowed], rfl, rfl, rfl⟩
  · intro hrole
    subst hrole
    simp [create_message, hmem, show messageRoleAllowed "tool" = false from rfl]

/-- Witness for C9 amended: inserting an assistant message into an existing
conversation, and the tool-role rejection, at concrete inputs. -/
theorem create_message_role_set_witness :
    (∃ row, create_message ⟨["c1"], [], []⟩ "m1" "c1" "assistant" "hi"
        = .ok ({ conversations := ["c1"], messages := [] ++ [row], tool_calls := [] }, row)
      ∧ row.role = "assistant" ∧ row.content = "hi"
      ∧ row.position = nextPosition ⟨["c1"], [], []⟩ "c1")
    ∧ create_message ⟨["c1"], [], []⟩ "m2" "c1" "tool" "out"
        = .error "CHECK constraint failed: role" :=
  ⟨(create_message_role_set ⟨["c1"], [], []⟩ "m1" "c1" "hi" "assistant" (by decide)).1
      (Or.inr (Or.inl rfl)),
   (create_message_role_set ⟨["c1"], [], []⟩ "m2" "c1" "out" "tool" (by decide)).2 rfl⟩

/-! ## Claim C8: attachment filename sanitisation and containment -/

/-- Every character of a sanitised filename is in the keep-class or an
underscore. -/
theorem sanitize_filename_chars (filename : String) :
    ∀ c ∈ (sanitize_filename filename).toList, (sanitizeKeep c || c = '_') = true := by
  unfold sanitize_filename
  set l := ((afterLastSlash filename.toList).filter (fun c => c ≠ '\x00')).map
    (fun c => if sanitizeKeep c then c else '_') with hl
  by_cases he : l.isEmpty
  · simp only [he, if_true]
    decide
  · simp only [he, if_false]
    intro c hc
    have hc2 : c ∈ l := hc
    rw [hl] at hc2
    rcases List.mem_map.mp hc2 with ⟨a, _, ha⟩
    by_cases hk : sanitizeKeep a
    · rw [← ha]
      simp [hk]
    · rw [← ha]
      simp [hk]

/-- A sanitised filename never contains a path separator. -/
theorem sanitize_filename_no_slash (filename : String) :
    '/' ∉ (sanitize_filename filename).toList := by
  intro hmem
  have h := sanitize_filename_chars filename '/' hmem
  simp [sanitizeKeep, pyWordChar] at h

/-- Claim C8 counterexample: the source keep-class is Unicode `\w` plus dot
and hyphen, not the ASCII class `[A-Za-z0-9._-]` of the claim — the Latin-1
letter in "é.txt" survives sanitisation where the claim requires `_`, and the
attachment is stored under that name. -/
theorem sanitize_filename_keeps_unicode :
    sanitize_filename "é.txt" = "é.txt"
    ∧ spec_sanitize_filename "é.txt" = "_.txt"
    ∧ sanitize_filename "é.txt" ≠ spec_sanitize_filename "é.txt"
    ∧ save_attachment "m1" "c1" "é.txt" "text/plain" 3 "aid1" ["root"]
        = .ok ⟨"aid1", "m1", "é.txt", "text/plain", 3, "attachments/c1/aid1_é.txt"⟩ := by
  refine ⟨rfl, rfl, by decide, rfl⟩

/-- Claim C8 amended: `save_attachment` stores the file under the sanitised
name — directory components stripped and every character outside Python's
`\w` word class (Unicode letters, digits, underscore) plus dot and hyphen
replaced with `_` — and fails with a validation error on an oversize
payload, a mime type outside the allow-list, or a resolved storage path that
is not a descendant of the attachment root.  The theorem is stated for
filenames over the sub-U+0100 alphabet, on which the embedding `pyWordChar`
of Python's `\w` is exact (see `latin1String`). -/
theorem save_attachment_sanitises (message_id conversation_id filename mime_type : String)
    (dataLen : Nat) (aid : String) (data_dir : List String)
    (_hdom : latin1String filename = true) :
    (∀ rec, save_attachment message_id conversation_id filename mime_type dataLen aid data_dir
        = .ok rec →
      rec.filename = sanitize_filename filename
      ∧ (∀ c ∈ rec.filename.toList, (sanitizeKeep c || c = '_') = true)
      ∧ '/' ∉ rec.filename.toList
      ∧ rec.storage_path
          = "attachments/" ++ conversation_id ++ "/" ++ aid ++ "_" ++ rec.filename
      ∧ isRelativeToComponents
          (resolveComponents data_dir (splitSlash rec.storage_path)) data_dir = true)
    ∧ (MAX_ATTACHMENT_SIZE < dataLen →
        save_attachment message_id conversation_id filename mime_type dataLen aid data_dir
          = .error "File exceeds maximum size of 10 MB")
    ∧ (dataLen ≤ MAX_ATTACHMENT_SIZE → ALLOWED_MIME_TYPES.contains mime_type = false →
        save_attachment message_id conversation_id filename mime_type dataLen aid data_dir
          = .error "Unsupported file type")
    ∧ (dataLen ≤ MAX_ATTACHMENT_SIZE → ALLOWED_MIME_TYPES.contains mime_type = true →
        isRelativeToComponents
          (resolveComponents data_dir (splitSlash
            ("attachments/" ++ conversation_id ++ "/" ++ aid ++ "_"
              ++ sanitize_filename filename))) data_dir = false →
        save_attachment message_id conversation_id filename mime_type dataLen aid data_dir
          = .error "Invalid filename") := by
  refine ⟨?_, ?_, ?_, ?_⟩
  · intro rec hok
    simp only [save_attachment] at hok
    split at hok
    · exact absurd hok (by simp)
    · split at hok
      · exact absurd hok (by simp)
      · split at hok
        · exact absurd hok (by simp)
        · rename_i hsize hmime hrel
          cases hok
          refine ⟨rfl, sanitize_filename_chars filename, sanitize_filename_no_slash filename,
            rfl, ?_⟩
          simpa using hrel
  · intro hsize
    simp only [save_attachment, if_pos hsize]
  · intro hsize hmime
    have h1 : ¬ MAX_ATTACHMENT_SIZE < dataLen := by omega
    have h2 : ¬ (ALLOWED_MIME_TYPES.contains mime_type = true) := by
      intro hc
      rw [hmime] at hc
      exact absurd hc (by decide)
    simp only [save_attachment, if_neg h1, if_pos h2]
  · intro hsize hmime hrel
    have h1 : ¬ MAX_ATTACHMENT_SIZE < dataLen := by omega
    have h2 : ¬¬ (ALLOWED_MIME_TYPES.contains mime_type = true) := fun hc => hc hmime
    have h3 : ¬ (isRelativeToComponents
        (resolveComponents data_dir (splitSlash
          ("attachments/" ++ conversation_id ++ "/" ++ aid ++ "_"
            ++ sanitize_filename filename))) data_dir = true) := by
      rw [hrel]
      exact fun hc => absurd hc (by decide)
    simp only [save_attachment, if_neg h1, if_neg h2, if_pos h3]

/-- Witness for C8 amended: a stored attachment and an oversize rejection at
concrete inputs. -/
theorem save_attachment_sanitises_witness :
    (∀ rec, save_attachment "m1" "c1" "dir/a b.txt" "text/plain" 3 "aid1" ["root"]
        = .ok rec →
      rec.filename = sanitize_filename "dir/a b.txt"
      ∧ (∀ c ∈ rec.filename.toList, (sanitizeKeep c || c = '_') = true)
      ∧ '/' ∉ rec.filename.toList
      ∧ rec.storage_path = "attachments/" ++ "c1" ++ "/" ++ "aid1" ++ "_" ++ rec.filename
      ∧ isRelativeToComponents
          (resolveComponents ["root"] (splitSlash rec.storage_path)) ["root"] = true)
    ∧ save_attachment "m1" "c1" "big.bin" "application/pdf" (MAX_ATTACHMENT_SIZE + 1)
        "aid2" ["root"] = .error "File exceeds maximum size of 10 MB" :=
  ⟨(save_attachment_sanitises "m1" "c1" "dir/a b.txt" "text/plain" 3 "aid1" ["root"]
      (by decide)).1,
   (save_attachment_sanitises "m1" "c1" "big.bin" "application/pdf"
      (MAX_ATTACHMENT_SIZE + 1) "aid2" ["root"] (by decide)).2.1 (by omega)⟩

/-! ## Claim C5: SSE URL validation -/

/-- Claim C5 counterexample: the CGNAT range `100.64.0.0/10` belongs to the
claim's blocked set but is absent from `_BLOCKED_NETWORKS`: validation
accepts an SSE URL pointing at `100.64.0.1` (and the manager would proceed to
connect to it). -/
theorem validate_sse_url_allows_cgnat :
    validate_sse_url "http" (Host.ip (IpAddr.v4 (v4addr 100 64 0 1))) (fun _ => none)
      = .ok ()
    ∧ addrBlocked spec_BLOCKED_NETWORKS (IpAddr.v4 (v4addr 100 64 0 1)) = true := by
  exact ⟨rfl, by decide⟩

/-- The address checks succeed exactly when the literal address, or every
resolved address of a resolvable name, avoids the blocked set. -/
theorem hostAddrCheck_ok_iff (host : Host) (dns : String → Option (List IpAddr)) :
    hostAddrCheck host dns = .ok () ↔
      ((∀ a, host = Host.ip a → addrBlocked BLOCKED_NETWORKS a = false)
        ∧ (∀ s, host = Host.name s → ∃ addrs, dns s = some addrs
            ∧ addrs.any (addrBlocked BLOCKED_NETWORKS) = false)) := by
  cases host with
  | ip a =>
    simp only [hostAddrCheck]
    constructor
    · intro hok
      constructor
      · intro a2 ha2
        injection ha2 with ha3
        subst ha3
        by_cases hb : addrBlocked BLOCKED_NETWORKS a = true
        · rw [if_pos hb] at hok
          exact absurd hok (by simp)
        · simpa using hb
      · intro s hs
        exact absurd hs (by simp)
    · rintro ⟨hip, -⟩
      rw [if_neg (by simp [hip a rfl])]
  | name s =>
    simp only [hostAddrCheck]
    constructor
    · intro hok
      constructor
      · intro a2 ha2
        exact absurd ha2 (by simp)
      · intro s2 hs2
        injection hs2 with hs3
        subst hs3
        cases hdns : dns s with
        | none =>
          rw [hdns] at hok
          exact absurd hok (by simp)
        | some addrs =>
          rw [hdns] at hok
          have hok2 : (if addrs.any (addrBlocked BLOCKED_NETWORKS) = true
              then (Except.error "Hostname resolves to blocked IP" : Except String Unit)
              else Except.ok ()) = Except.ok () := hok
          by_cases hb : addrs.any (addrBlocked BLOCKED_NETWORKS) = true
          · rw [if_pos hb] at hok2
            exact absurd hok2 (by simp)
          · exact ⟨addrs, rfl, by simpa using hb⟩
    · rintro ⟨-, hname⟩
      rcases hname s rfl with ⟨addrs, hdns, hany⟩
      rw [hdns]
      show (if addrs.any (addrBlocked BLOCKED_NETWORKS) = true
          then (Except.error "Hostname resolves to blocked IP" : Except String Unit)
          else Except.ok ()) = Except.ok ()
      rw [if_neg (by simp [hany])]

/-- Claim C5 amended: validation succeeds exactly when the scheme is http or
https, the hostname is not a known internal alias, and no address of the host
(the IP literal, or every DNS-resolved address otherwise, failing on
unresolvable names) lies in the source's blocked set — loopback, RFC1918
private, link-local and unique-local; CGNAT `100.64.0.0/10` is NOT blocked.
On a validation error the SSE connect acquires no resource and records the
error status, so no connection attempt is made. -/
theorem validate_sse_url_accepts_iff (scheme : String) (host : Host)
    (dns : String → Option (List IpAddr)) :
    (validate_sse_url scheme host dns = .ok () ↔
      ((scheme = "http" ∨ scheme = "https")
        ∧ host.aliasBlocked = false
        ∧ (∀ a, host = Host.ip a → addrBlocked BLOCKED_NETWORKS a = false)
        ∧ (∀ s, host = Host.name s → ∃ addrs, dns s = some addrs
            ∧ addrs.any (addrBlocked BLOCKED_NETWORKS) = false)))
    ∧ (∀ name env st msg, validate_sse_url scheme host env.dns = .error msg →
        (connect_one ⟨name, Transport.sse, none, some (scheme, host)⟩ env st).alive = []
        ∧ alookup name
            (connect_one ⟨name, Transport.sse, none, some (scheme, host)⟩ env st).state.server_status
          = some ⟨StatusKind.error, 0, some msg⟩) := by
  constructor
  · constructor
    · intro hok
      unfold validate_sse_url at hok
      by_cases hs : scheme = "http" ∨ scheme = "https"
      · by_cases ha : host.aliasBlocked = true
        · rw [if_neg (fun hc => hc hs), if_pos ha] at hok
          exact absurd hok (by simp)
        · have ha2 : host.aliasBlocked = false := by simpa using ha
          rw [if_neg (fun hc => hc hs), if_neg ha] at hok
          exact ⟨hs, ha2, ((hostAddrCheck_ok_iff host dns).mp hok).1,
            ((hostAddrCheck_ok_iff host dns).mp hok).2⟩
      · rw [if_pos hs] at hok
        exact absurd hok (by simp)
    · rintro ⟨hscheme, halias, hip, hname⟩
      unfold validate_sse_url
      rw [if_neg (fun hc => hc hscheme), if_neg (by simp [halias])]
      exact (hostAddrCheck_ok_iff host dns).mpr ⟨hip, hname⟩
  · intro name env st msg hfail
    have hred : connect_one ⟨name, Transport.sse, none, some (scheme, host)⟩ env st
        = (match validate_sse_url scheme host env.dns with
            | .error msg2 => connectFail st name msg2 [] false
            | .ok _ =>
              connectFromTransport ⟨name, Transport.sse, none, some (scheme, host)⟩ env st) :=
      rfl
    rw [hred, hfail]
    exact ⟨rfl, alookup_aset_self name _ _⟩

/-- Witness for C5 amended: a public IP literal is accepted, and a bad-scheme
URL fails validation with no resource acquired. -/
theorem validate_sse_url_accepts_iff_witness :
    validate_sse_url "http" (Host.ip (IpAddr.v4 (v4addr 8 8 8 8))) (fun _ => none) = .ok ()
    ∧ (connect_one ⟨"p", Transport.sse, none, some ("ftp", Host.name "example.com")⟩
        ⟨true, true, true, true, none, fun _ => none⟩ ManagerState.empty).alive = [] := by
  constructor
  · exact (validate_sse_url_accepts_iff "http" (Host.ip (IpAddr.v4 (v4addr 8 8 8 8)))
      (fun _ => none)).1.mpr
      ⟨Or.inl rfl, rfl,
        fun a ha => by injection ha with h2; subst h2; decide,
        fun s hs => nomatch hs⟩
  · exact ((validate_sse_url_accepts_iff "ftp" (Host.name "example.com")
      (fun _ => none)).2 "p" ⟨true, true, true, true, none, fun _ => none⟩
      ManagerState.empty "Unsupported URL scheme" rfl).1

/-! ## Claim C1: teardown after a failed connect -/

/-- Claim C1 failing input, evaluated: a stdio provider whose command
resolves, whose transport opens and whose session initialises, but whose
`list_tools` call raises.  `_connect_one` closes the exit stack (so no
subprocess, socket or task survives: nothing is alive and nothing leaks) and
records status error — but the `_sessions` and `_exit_stacks` entries stored
before the `list_tools` call remain in the maps, the latter now pointing at a
closed stack, contradicting the claim that no entry remains. -/
theorem connect_one_list_tools_failure_keeps_entries :
    connect_one ⟨"srv", Transport.stdio, some "cmd", none⟩
        ⟨true, true, true, true, none, fun _ => none⟩ ManagerState.empty
      = ⟨⟨[("srv", ⟨[Resource.transportRes "srv", Resource.sessionRes "srv"], true⟩)],
          [("srv", "srv")], [], [],
          [("srv", ⟨StatusKind.error, 0, some "list_tools failed"⟩)]⟩, []⟩
    ∧ leakedResources (connect_one ⟨"srv", Transport.stdio, some "cmd", none⟩
        ⟨true, true, true, true, none, fun _ => none⟩ ManagerState.empty) = []
    ∧ (connect_one ⟨"srv2", Transport.stdio, some "cmd", none⟩
        ⟨true, true, false, true, none, fun _ => none⟩ ManagerState.empty).state.sessions = [] := by
  exact ⟨rfl, rfl, rfl⟩

/-! ## Claim C4: the tool loop of the HTTP chat endpoint is unbounded -/

/-- Claim C4 failing input, evaluated: with a completion stream that requests
one more tool call on every iteration, the `while True` loop of chat.py's
`event_generator` runs past any number of iterations — for every fuel the
loop is still running (`none`), and in particular no error event has ended
the turn.  The configured max-tool-iterations bound is not consulted on this
path. -/
theorem event_generator_loop_unbounded (fuel i : Nat)
    (persisted completions : List (String × String)) (events : List String) :
    event_generator_loop (fun _ => .toolCalls "" [⟨"t1", "listFiles", ""⟩])
      (fun _ => .ok "files") fuel i persisted completions events = none := by
  induction fuel generalizing i persisted completions events with
  | zero => rfl
  | succ n ih =>
    simp only [event_generator_loop]
    exact ih (i + 1) _ _ _

/-! ## Claim C3: cancellation mid-stream -/

/-- Claim C3 counterexample: the cancel signal observed after partial text
"Hel" was accumulated: the stream closes and the turn ends with done, but the
partial assistant text IS persisted to the store (chat.py saves the
accumulated content once the loop exits, lines 210-211). -/
theorem cancelled_turn_stores_accumulated_text :
    event_generator_loop (fun _ => .cancelled "Hel") (fun _ => .ok "") 5 0 [] [] []
      = some ⟨[("assistant", "Hel")], [], ["done"]⟩ := by
  rfl

/-- Claim C3 amended: when the cancel signal is set while the stream is in
flight, the stream is closed and the turn ends immediately by emitting done
(no error, no further iteration); however the partially accumulated assistant
text, when non-empty, is persisted to the store as an assistant message. -/
theorem cancelled_turn_ends_done (oracle : Nat → IterationOutcome)
    (toolRes : ToolCallReq → Except String String) (fuel i : Nat)
    (persisted completions : List (String × String)) (events : List String)
    (text : String) (h : oracle i = .cancelled text) :
    event_generator_loop oracle toolRes (fuel + 1) i persisted completions events
      = some ⟨persisted ++ (if text = "" then [] else [("assistant", text)]),
              completions, events ++ ["done"]⟩ := by
  simp only [event_generator_loop, h]

/-- Witness for C3 amended at a concrete cancelled stream. -/
theorem cancelled_turn_ends_done_witness :
    event_generator_loop (fun _ => IterationOutcome.cancelled "Hi") (fun _ => .ok "")
        1 0 [] [] []
      = some ⟨[("assistant", "Hi")], [], ["done"]⟩ := by
  have h := cancelled_turn_ends_done (fun _ => IterationOutcome.cancelled "Hi")
    (fun _ => .ok "") 0 0 [] [] [] "Hi" rfl
  simpa using h

end Anteroom
